import Mathlib

/-!
Shallow embedding of `scrapy_time_machine/storages.py`.

The file models the two storage classes of the source,
`DbmTimeMachineStorage` and `S3TimeMachineStorage`, over an explicit
state.  External libraries are modelled at their interface:

* `gzip.compress` / `gzip.decompress` — an opaque invertible wrapper
  (`GzBytes.compress`), since gzip is a lossless external codec;
* `pickle.dumps` / `pickle.loads` — a tagged value (`DBValue.pickled`),
  since pickle is an external self-describing serializer;
* the `dbm` database — an association list from string keys to stored
  values, newest entry first, matching dbm's get/put/contains/len
  semantics (`len` counts distinct keys; a dbm handle's Python
  truthiness goes through `__len__`, and a closed handle raises);
* `boto3`, `NamedTemporaryFile`, file and database opens — recorded in
  an explicit effect trace so that theorems can speak about which
  external actions a code path performs and in which order.

Wall-clock time (`time.time()`) enters `store_response` as an explicit
parameter holding the string the source would store (`str(time())`).
-/

/-- Raw (uncompressed) body bytes. -/
abbrev Bytes := List Nat

/-- Result of `gzip.compress` on a body.  gzip is an external lossless
codec, so it is modelled as an opaque invertible wrapper. -/
inductive GzBytes where
  | compress (b : Bytes)
deriving DecidableEq, Repr

/-- `gzip.decompress`, the inverse of `gzip.compress`. -/
def gzipDecompress : GzBytes → Bytes
  | .compress b => b

/-- The dictionary pickled by `store_response`: status, url, headers
(`dict(response.headers)`) and the gzip-compressed body. -/
structure RecordData where
  status : Nat
  url : String
  headers : List (String × List String)
  body : GzBytes
deriving DecidableEq, Repr

/-- A value stored in the dbm database: either a pickled record dict
(under a `_data` key) or the `str(time())` string (under a `_time` key). -/
inductive DBValue where
  | pickled (d : RecordData)
  | timeStr (t : String)
deriving DecidableEq, Repr

/-- Python-level errors the embedded code paths can raise. -/
inductive PyErr where
  | keyError (k : String)
  | unpicklingError
  | dbmClosed
  | valueError (msg : String)
  | closeSpider (msg : String)
  | remoteError
  | attributeError (name : String)
deriving DecidableEq, Repr

/-- `pickle.loads` applied to a stored value: succeeds on a pickled
record, fails (UnpicklingError) on the raw time string. -/
def pickleLoads : DBValue → Except PyErr RecordData
  | .pickled d => .ok d
  | .timeStr _ => .error .unpicklingError

/-- A scrapy `Response` as far as the storage reads and writes it:
status, url, headers and (uncompressed) body bytes. -/
structure Response where
  status : Nat
  url : String
  headers : List (String × List String)
  body : Bytes
deriving DecidableEq, Repr

/-- The dbm database contents: association list, newest entry first
(`dbPut` conses, lookups take the first match, so a later put shadows an
earlier one exactly as dbm overwrite does). -/
abbrev DB := List (String × DBValue)

/-- dbm read `db[k]`, as an `Option`. -/
def dbGet (db : DB) (k : String) : Option DBValue :=
  (db.find? (fun p => p.1 == k)).map (·.2)

/-- dbm membership test `k in db`. -/
def dbContains (db : DB) (k : String) : Bool :=
  (dbGet db k).isSome

/-- dbm write `db[k] = v` (silently overwrites). -/
def dbPut (db : DB) (k : String) (v : DBValue) : DB :=
  (k, v) :: db

/-- Number of distinct keys in the database — what `len(db)` returns on
an open dbm handle. -/
def dbLen : DB → Nat
  | [] => 0
  | (k, _) :: rest => if (rest.map Prod.fst).contains k then dbLen rest else dbLen rest + 1

/-- The record dict built by `store_response` before pickling:
`{"status": …, "url": …, "headers": dict(response.headers),
"body": gzip.compress(response.body)}`, then `pickle.dumps`. -/
def encodeRecord (r : Response) : DBValue :=
  .pickled { status := r.status, url := r.url, headers := r.headers,
             body := .compress r.body }

/-- Decoding performed by `retrieve_response` on loaded data: rebuild
the response fields, decompressing the body. -/
def decodeRecord (v : DBValue) : Except PyErr Response :=
  match pickleLoads v with
  | .error e => .error e
  | .ok d => .ok { status := d.status, url := d.url, headers := d.headers,
                   body := gzipDecompress d.body }

/-- The two writes `store_response` performs, in source order:
`db["%s_data" % key] = pickle.dumps(data)` first, then
`db["%s_time" % key] = str(time())`. -/
def storeWrites (key : String) (r : Response) (t : String) : List (String × DBValue) :=
  [(key ++ "_data", encodeRecord r), (key ++ "_time", .timeStr t)]

/-- `DbmTimeMachineStorage.store_response`, on database contents `db`,
for a request whose fingerprint is `key`; `t` is the string the source
stores as the wall-clock write time (`str(time())`). -/
def store_response (db : DB) (key : String) (r : Response) (t : String) : DB :=
  (storeWrites key r t).foldl (fun d kv => dbPut d kv.1 kv.2) db

/-- `DbmTimeMachineStorage._read_data`: check the `_time` key first and
return `none` ("not found") if absent; otherwise load the `_data` key
(a missing `_data` key is a Python `KeyError`, a non-pickle value an
UnpicklingError).  The second component records which database keys the
code accesses, in order. -/
def read_data (db : DB) (key : String) :
    Except PyErr (Option RecordData) × List String :=
  let tkey := key ++ "_time"
  if dbContains db tkey then
    let dkey := key ++ "_data"
    match dbGet db dkey with
    | none => (.error (.keyError dkey), [tkey, dkey])
    | some v =>
      match pickleLoads v with
      | .error e => (.error e, [tkey, dkey])
      | .ok d => (.ok (some d), [tkey, dkey])
  else
    (.ok none, [tkey])

/-- `DbmTimeMachineStorage.retrieve_response`: `_read_data`, then, when
data is present, rebuild the response (status, url, headers, and
`gzip.decompress` of the stored body). -/
def retrieve_response (db : DB) (key : String) : Except PyErr (Option Response) :=
  match (read_data db key).1 with
  | .error e => .error e
  | .ok none => .ok none
  | .ok (some d) =>
    .ok (some { status := d.status, url := d.url, headers := d.headers,
                body := gzipDecompress d.body })

/-- Appending the `_time` suffix and the `_data` suffix to the same
fingerprint always yields distinct keys. -/
theorem append_time_ne_data (f : String) : (f ++ "_time") ≠ (f ++ "_data") := by
  intro h
  have h2 : f.data ++ "_time".data = f.data ++ "_data".data := by
    simpa [String.data_append] using congrArg String.data h
  have h3 := List.append_cancel_left h2
  exact absurd h3 (by decide)

theorem beq_time_data (f : String) : ((f ++ "_time") == (f ++ "_data")) = false :=
  beq_eq_false_iff_ne.mpr (append_time_ne_data f)

theorem beq_data_time (f : String) : ((f ++ "_data") == (f ++ "_time")) = false :=
  beq_eq_false_iff_ne.mpr fun h => append_time_ne_data f h.symm

/-- Storing under fingerprint `f` leaves the database with the time
entry newest, the data entry next. -/
theorem store_response_eq (db : DB) (f : String) (r : Response) (t : String) :
    store_response db f r t =
      (f ++ "_time", .timeStr t) :: (f ++ "_data", encodeRecord r) :: db := by
  simp [store_response, storeWrites, dbPut]

/-- C1: after `store_response` under fingerprint `f`, `retrieve_response`
of `f` on the same database returns a response with the same status,
url, headers and body. -/
theorem store_then_retrieve (db : DB) (f : String) (r : Response) (t : String) :
    retrieve_response (store_response db f r t) f = .ok (some r) := by
  simp [retrieve_response, read_data, store_response_eq, dbContains, dbGet,
        List.find?, beq_time_data, pickleLoads, encodeRecord, gzipDecompress]

/-- C2: decoding an encoded record returns exactly the original
(status, url, headers, body), the body round-tripping through the
gzip compress/decompress pair. -/
theorem decode_encode (r : Response) : decodeRecord (encodeRecord r) = .ok r := rfl

/-- C3: a second store under the same fingerprint fully shadows the
first; retrieval afterwards returns the second record. -/
theorem store_overwrite (db : DB) (f : String) (a b : Response) (ta tb : String) :
    retrieve_response (store_response (store_response db f a ta) f b tb) f =
      .ok (some b) := by
  simp [retrieve_response, read_data, store_response_eq, dbContains, dbGet,
        List.find?, beq_time_data, pickleLoads, encodeRecord, gzipDecompress]

/-- A concrete response used by witnesses. -/
def rec0 : Response :=
  { status := 200, url := "http://example.com",
    headers := [("Content-Type", ["text/html"])], body := [104, 105] }

/-- C4: when the `_time` sub-key is absent, `_read_data` returns "not
found" having accessed only the `_time` key — the `_data` key is never
read, whatever it holds — and `retrieve_response` returns absent. -/
theorem retrieve_miss_skips_payload (db : DB) (f : String)
    (h : dbContains db (f ++ "_time") = false) :
    read_data db f = (.ok none, [f ++ "_time"]) ∧
    retrieve_response db f = .ok none := by
  constructor
  · simp [read_data, h]
  · simp [retrieve_response, read_data, h]

theorem retrieve_miss_skips_payload_witness :
    dbContains [("f_data", encodeRecord rec0)] ("f" ++ "_data") = true ∧
    (read_data [("f_data", encodeRecord rec0)] "f" = (.ok none, ["f" ++ "_time"]) ∧
     retrieve_response [("f_data", encodeRecord rec0)] "f" = .ok none) :=
  ⟨by decide, retrieve_miss_skips_payload [("f_data", encodeRecord rec0)] "f" (by decide)⟩

/-- C5: `store_response` performs exactly two writes, payload key
`f ++ "_data"` first and timestamp key `f ++ "_time"` second, the
timestamp value being the wall-clock time string passed for
`str(time())`; every other key of the database is untouched. -/
theorem store_two_writes (db : DB) (f : String) (r : Response) (t : String) :
    storeWrites f r t =
      [(f ++ "_data", encodeRecord r), (f ++ "_time", DBValue.timeStr t)] ∧
    store_response db f r t =
      dbPut (dbPut db (f ++ "_data") (encodeRecord r)) (f ++ "_time") (DBValue.timeStr t) ∧
    dbGet (store_response db f r t) (f ++ "_data") = some (encodeRecord r) ∧
    dbGet (store_response db f r t) (f ++ "_time") = some (DBValue.timeStr t) ∧
    ∀ k, k ≠ f ++ "_data" → k ≠ f ++ "_time" →
      dbGet (store_response db f r t) k = dbGet db k := by
  refine ⟨rfl, by simp [store_response, storeWrites, dbPut], ?_, ?_, ?_⟩
  · simp [store_response_eq, dbGet, List.find?, beq_time_data]
  · simp [store_response_eq, dbGet, List.find?]
  · intro k hk1 hk2
    simp [store_response_eq, dbGet, List.find?,
          beq_eq_false_iff_ne.mpr (Ne.symm hk2), beq_eq_false_iff_ne.mpr (Ne.symm hk1)]

theorem store_two_writes_witness :
    storeWrites "abc" rec0 "1700.5" =
      [("abc" ++ "_data", encodeRecord rec0), ("abc" ++ "_time", DBValue.timeStr "1700.5")] ∧
    dbGet (store_response [] "abc" rec0 "1700.5") ("abc" ++ "_data") = some (encodeRecord rec0) ∧
    dbGet (store_response [] "abc" rec0 "1700.5") ("abc" ++ "_time") = some (DBValue.timeStr "1700.5") ∧
    dbGet (store_response [] "abc" rec0 "1700.5") "other" = dbGet [] "other" := by
  have h := store_two_writes [] "abc" rec0 "1700.5"
  exact ⟨h.1, h.2.2.1, h.2.2.2.1, h.2.2.2.2 "other" (by decide) (by decide)⟩

/-- C10: when the `_time` sub-key is present but the `_data` sub-key is
absent, `_read_data` reads the payload key unconditionally and raises a
KeyError, so `retrieve_response` propagates the error instead of
returning absent. -/
theorem time_without_data_raises (db : DB) (f : String)
    (ht : dbContains db (f ++ "_time") = true)
    (hd : dbGet db (f ++ "_data") = none) :
    (read_data db f).1 = .error (.keyError (f ++ "_data")) ∧
    retrieve_response db f = .error (.keyError (f ++ "_data")) := by
  constructor <;> simp [retrieve_response, read_data, ht, hd]

theorem time_without_data_raises_witness :
    (read_data [("f_time", DBValue.timeStr "1.0")] "f").1 =
      .error (.keyError ("f" ++ "_data")) ∧
    retrieve_response [("f_time", DBValue.timeStr "1.0")] "f" =
      .error (.keyError ("f" ++ "_data")) :=
  time_without_data_raises [("f_time", DBValue.timeStr "1.0")] "f" (by decide) (by decide)

/-- State of the `self.db` attribute: Python `None`, an open dbm handle
with contents, or a handle whose `close()` has run.  Python truthiness
of a dbm handle goes through `__len__`, which raises on a closed
handle. -/
inductive DbHandle where
  | noneH
  | openH (db : DB)
  | closedH
deriving DecidableEq, Repr

/-- `if self.db:` — truthiness of the handle.  `None` is falsy; an open
handle is truthy iff `len(db) > 0`; a closed handle raises ("dbm object
has already been closed"). -/
def dbTruthy : DbHandle → Except PyErr Bool
  | .noneH => .ok false
  | .openH db => .ok (decide (0 < dbLen db))
  | .closedH => .error .dbmClosed

/-- External actions a lifecycle path performs, in order. -/
inductive Effect where
  | dbmOpenFile (path : String) (mode : String)
  | dbClose
  | createStagingFile
  | s3Download (bucket : String) (path : String)
  | s3Upload (bucket : String) (path : String)
  | fileFlush
  | fileClose
deriving DecidableEq, Repr

/-- Attribute state of a `DbmTimeMachineStorage` instance. -/
structure LocalState where
  snapshot_uri : Option String
  db : DbHandle
deriving DecidableEq, Repr

/-- `DbmTimeMachineStorage.open_spider`: `_prepare_time_machine` is a
no-op; if `self.snapshot_uri` is falsy (Python `None` or the empty
string) raise `CloseSpider("Snapshot uri not configured.")`, else
`dbm.open(self.snapshot_uri, "c")`.  `disk` is the content the file at
that path already holds (empty for a fresh file). -/
def open_spider (st : LocalState) (disk : DB) :
    Except PyErr LocalState × List Effect :=
  match st.snapshot_uri with
  | none => (.error (.closeSpider "Snapshot uri not configured."), [])
  | some uri =>
    if uri = "" then (.error (.closeSpider "Snapshot uri not configured."), [])
    else (.ok { st with db := .openH disk }, [.dbmOpenFile uri "c"])

/-- `DbmTimeMachineStorage.close_spider`: `if self.db: self.db.close()`,
then `_finish_time_machine` (a no-op in the base class).  `self.db` is
never reset, so the handle stays in the attribute after closing. -/
def close_spider (st : LocalState) : Except PyErr LocalState × List Effect :=
  match dbTruthy st.db with
  | .error e => (.error e, [])
  | .ok true => (.ok { st with db := .closedH }, [.dbClose])
  | .ok false => (.ok st, [])

/-- State of `self.path_to_local_file`, the S3 variant's staging file. -/
inductive FileHandle where
  | openF
  | closedF
deriving DecidableEq, Repr

/-- Attribute state of an `S3TimeMachineStorage` instance.
`snapshot_uri` is the resolved S3 location (`set_uri` has run);
`retrieve_mode` / `snapshot_mode` are the `TIME_MACHINE_RETRIEVE` /
`TIME_MACHINE_SNAPSHOT` settings; `staging` is `none` until
`_prepare_time_machine` creates the temporary file. -/
structure S3State where
  db : DbHandle
  snapshot_uri : String
  retrieve_mode : Bool
  snapshot_mode : Bool
  staging : Option FileHandle
deriving DecidableEq, Repr

/-- Splits `s` at the first occurrence of `pat`, returning the parts
before and after, or `none` when `pat` does not occur. -/
def splitFirst (pat : List Char) : List Char → Option (List Char × List Char)
  | [] => if pat = [] then some ([], []) else none
  | c :: cs =>
    if pat.isPrefixOf (c :: cs) then some ([], (c :: cs).drop pat.length)
    else match splitFirst pat cs with
      | some (a, b) => some (c :: a, b)
      | none => none

/-- `urllib.parse.urlparse` restricted to the `scheme://netloc/path`
shapes the storage feeds it: the text before `"://"` is the scheme, the
text from there to the next `/` is the netloc, and the rest (with its
leading `/`) is the path.  A string without `"://"` has empty scheme and
netloc and is all path. -/
def urlparseS3 (s : String) : String × String × String :=
  match splitFirst "://".data s.data with
  | none => ("", "", s)
  | some (scheme, rest) =>
    match splitFirst "/".data rest with
    | none => (String.mk scheme, String.mk rest, "")
    | some (nl, tail) => (String.mk scheme, String.mk nl, String.mk ('/' :: tail))

/-- `str.lstrip('/')`. -/
def lstripSlash (s : String) : String :=
  String.mk (s.data.dropWhile (· = '/'))

/-- `S3TimeMachineStorage.get_netloc_and_path`: urlparse the URI, raise
ValueError unless the scheme is `s3`, raise ValueError when the bucket
(netloc) or the path is empty, else return both. -/
def get_netloc_and_path (s3_uri : String) : Except PyErr (String × String) :=
  let (scheme, netloc, path) := urlparseS3 s3_uri
  if scheme ≠ "s3" then
    .error (.valueError ("Provided uri scheme is not s3: " ++ scheme))
  else if netloc = "" ∨ path = "" then
    .error (.valueError "bucket and path must not be empty")
  else
    .ok (netloc, path)

/-- `S3TimeMachineStorage._prepare_time_machine`: always create the
temporary staging file first; then, in retrieve mode, validate the URI,
download the snapshot into the staging file and open it with dbm mode
`"c"`; otherwise open the staging file fresh with mode `"n"` and no
validation.  `self.path_to_local_file` is assigned only at the end, so
on the error path the attribute stays unset.  `remoteDb` is the content
of the downloaded snapshot (the download itself is modelled as
succeeding). -/
def prepare_time_machine (st : S3State) (remoteDb : DB) :
    Except PyErr S3State × List Effect :=
  if st.retrieve_mode then
    match get_netloc_and_path st.snapshot_uri with
    | .error e => (.error e, [.createStagingFile])
    | .ok (bucket, path) =>
      (.ok { st with db := .openH remoteDb, staging := some .openF },
       [.createStagingFile, .s3Download bucket (lstripSlash path),
        .dbmOpenFile "tempfile" "c"])
  else
    (.ok { st with db := .openH [], staging := some .openF },
     [.createStagingFile, .dbmOpenFile "tempfile" "n"])

/-- `S3TimeMachineStorage.open_spider`: just `_prepare_time_machine`
plus a debug log line. -/
def s3_open_spider (st : S3State) (remoteDb : DB) :
    Except PyErr S3State × List Effect :=
  prepare_time_machine st remoteDb

/-- `S3TimeMachineStorage._finish_time_machine`: only in snapshot mode —
flush the staging file (a flush on a closed file raises ValueError, on a
never-set attribute AttributeError), resolve the bucket and path, upload
the file, then close the staging file.  No try/finally: when the upload
raises (`uploadOk = false`) the close is never reached.  Outside
snapshot mode nothing at all happens. -/
def finish_time_machine (st : S3State) (uploadOk : Bool) :
    Except PyErr S3State × List Effect :=
  if st.snapshot_mode then
    match st.staging with
    | none => (.error (.attributeError "path_to_local_file"), [])
    | some .closedF => (.error (.valueError "I/O operation on closed file"), [])
    | some .openF =>
      match get_netloc_and_path st.snapshot_uri with
      | .error e => (.error e, [.fileFlush])
      | .ok (bucket, path) =>
        if uploadOk then
          (.ok { st with staging := some .closedF },
           [.fileFlush, .s3Upload bucket (lstripSlash path), .fileClose])
        else
          (.error .remoteError,
           [.fileFlush, .s3Upload bucket (lstripSlash path)])
  else
    (.ok st, [])

/-- `close_spider` as inherited by `S3TimeMachineStorage`: the base
method body with `_finish_time_machine` resolved to the S3 override. -/
def s3_close_spider (st : S3State) (uploadOk : Bool) :
    Except PyErr S3State × List Effect :=
  match dbTruthy st.db with
  | .error e => (.error e, [])
  | .ok true =>
    match finish_time_machine { st with db := .closedH } uploadOk with
    | (res, eff) => (res, .dbClose :: eff)
  | .ok false => finish_time_machine st uploadOk

/-- C9: opening a local session with an unconfigured snapshot uri
(Python `None` or the empty string) raises
`CloseSpider("Snapshot uri not configured.")` and performs no external
action — in particular no store file is created. -/
theorem open_unconfigured (st : LocalState) (disk : DB)
    (h : st.snapshot_uri = none ∨ st.snapshot_uri = some "") :
    open_spider st disk =
      (.error (.closeSpider "Snapshot uri not configured."), []) := by
  rcases h with h | h <;> simp [open_spider, h]

theorem open_unconfigured_witness :
    open_spider { snapshot_uri := none, db := .noneH } [] =
      (.error (.closeSpider "Snapshot uri not configured."), []) :=
  open_unconfigured { snapshot_uri := none, db := .noneH } [] (Or.inl rfl)

/-- A local session holding one stored record, and the same session
after its first `close_spider`. -/
def st0 : LocalState :=
  { snapshot_uri := some "snap.db", db := .openH (store_response [] "abc" rec0 "1.0") }

def st1 : LocalState := { st0 with db := .closedH }

/-- C6 fails on the code: after a completed `close_spider`, a second
`close_spider` hits `if self.db:` on the closed handle, whose `__len__`
raises, so the second close raises instead of being a no-op. -/
theorem close_twice_counterexample :
    close_spider st0 = (.ok st1, [.dbClose]) ∧
    close_spider st1 = (.error .dbmClosed, []) :=
  ⟨rfl, rfl⟩

/-- C6 amended: once the db handle is closed, a further `close_spider`
(local or S3 variant) raises the dbm closed-handle error at the
truthiness check and performs no external action — in particular no
second upload or download is attempted. -/
theorem close_after_close_raises (stL : LocalState) (stS : S3State) (u : Bool)
    (hL : stL.db = .closedH) (hS : stS.db = .closedH) :
    close_spider stL = (.error .dbmClosed, []) ∧
    s3_close_spider stS u = (.error .dbmClosed, []) := by
  constructor
  · simp [close_spider, hL, dbTruthy]
  · simp [s3_close_spider, hS, dbTruthy]

theorem close_after_close_raises_witness :
    close_spider { snapshot_uri := some "snap.db", db := .closedH } =
      (.error .dbmClosed, []) ∧
    s3_close_spider
      { db := .closedH, snapshot_uri := "s3://bucket1/path/snap.db",
        retrieve_mode := false, snapshot_mode := true,
        staging := some .closedF } true =
      (.error .dbmClosed, []) :=
  close_after_close_raises
    { snapshot_uri := some "snap.db", db := .closedH }
    { db := .closedH, snapshot_uri := "s3://bucket1/path/snap.db",
      retrieve_mode := false, snapshot_mode := true,
      staging := some .closedF } true rfl rfl

/-- A remote-synced session with record mode (snapshot mode) off and
its staging file still open. -/
def stC7 : S3State :=
  { db := .openH [], snapshot_uri := "s3://bucket1/path/snap.db",
    retrieve_mode := false, snapshot_mode := false, staging := some .openF }

/-- C7 fails on the code: with record mode off, `_finish_time_machine`
does nothing at all — the staging file stays open (no `fileClose`
effect), it is not released. -/
theorem finish_no_record_counterexample :
    finish_time_machine stC7 true = (.ok stC7, []) ∧
    stC7.staging = some FileHandle.openF := by
  constructor <;> rfl

/-- C7 amended: the staging file is closed only on the successful-upload
path; when the upload raises, the error propagates with the staging file
still open; when record mode is off, nothing is flushed, uploaded or
released. -/
theorem staging_release_only_on_upload (st : S3State) (bucket path : String)
    (hst : st.staging = some .openF)
    (hloc : get_netloc_and_path st.snapshot_uri = .ok (bucket, path)) :
    (st.snapshot_mode = true →
      finish_time_machine st true =
        (.ok { st with staging := some .closedF },
         [.fileFlush, .s3Upload bucket (lstripSlash path), .fileClose]) ∧
      finish_time_machine st false =
        (.error .remoteError, [.fileFlush, .s3Upload bucket (lstripSlash path)])) ∧
    (st.snapshot_mode = false → ∀ u, finish_time_machine st u = (.ok st, [])) := by
  constructor
  · intro hm
    constructor <;> simp [finish_time_machine, hm, hst, hloc]
  · intro hm u
    simp [finish_time_machine, hm]

/-- A remote-synced session with record mode on and its staging file
open. -/
def stC7b : S3State :=
  { db := .closedH, snapshot_uri := "s3://bucket1/path/snap.db",
    retrieve_mode := false, snapshot_mode := true, staging := some .openF }

theorem staging_release_only_on_upload_witness :
    finish_time_machine stC7b true =
      (.ok { stC7b with staging := some .closedF },
       [.fileFlush, .s3Upload "bucket1" (lstripSlash "/path/snap.db"), .fileClose]) ∧
    finish_time_machine stC7b false =
      (.error .remoteError,
       [.fileFlush, .s3Upload "bucket1" (lstripSlash "/path/snap.db")]) :=
  (staging_release_only_on_upload stC7b "bucket1" "/path/snap.db" rfl rfl).1 rfl

/-- A remote-synced session pointed at the partial location
`s3:///onlypath` (empty bucket) with retrieve mode off. -/
def stC8 : S3State :=
  { db := .noneH, snapshot_uri := "s3:///onlypath",
    retrieve_mode := false, snapshot_mode := false, staging := none }

/-- C8 fails on the code: with retrieve mode off, `open_spider` of the
S3 variant performs no location validation at all — at the empty-bucket
location it succeeds, and the staging file has already been created. -/
theorem open_no_validation_counterexample :
    s3_open_spider stC8 [] =
      (.ok { stC8 with db := .openH [], staging := some .openF },
       [.createStagingFile, .dbmOpenFile "tempfile" "n"]) :=
  rfl

/-- C8 amended: a malformed location (empty bucket or empty path) is
rejected with ValueError only when retrieve mode is on, and only after
the staging file has been created; with retrieve mode off the open
succeeds without any validation. -/
theorem s3_open_location_check (st : S3State) (d : DB) (nl p : String)
    (hparse : urlparseS3 st.snapshot_uri = ("s3", nl, p))
    (hbad : nl = "" ∨ p = "") :
    (st.retrieve_mode = true →
      s3_open_spider st d =
        (.error (.valueError "bucket and path must not be empty"),
         [.createStagingFile])) ∧
    (st.retrieve_mode = false →
      s3_open_spider st d =
        (.ok { st with db := .openH [], staging := some .openF },
         [.createStagingFile, .dbmOpenFile "tempfile" "n"])) := by
  have hloc : get_netloc_and_path st.snapshot_uri =
      .error (.valueError "bucket and path must not be empty") := by
    rcases hbad with hb | hb <;> simp [get_netloc_and_path, hparse, hb]
  constructor
  · intro hr
    simp [s3_open_spider, prepare_time_machine, hr, hloc]
  · intro hr
    simp [s3_open_spider, prepare_time_machine, hr]

/-- The same partial location with retrieve mode on. -/
def stC8r : S3State :=
  { db := .noneH, snapshot_uri := "s3:///onlypath",
    retrieve_mode := true, snapshot_mode := false, staging := none }

theorem s3_open_location_check_witness :
    s3_open_spider stC8r [] =
      (.error (.valueError "bucket and path must not be empty"),
       [.createStagingFile]) :=
  (s3_open_location_check stC8r [] "" "/onlypath" (by decide) (Or.inl rfl)).1 rfl
